import Mathlib

/-!
Shallow embedding of the update subsystem of `src/core/updater.py`
(the repository contains a second, near-identical copy `updater.py`;
the two agree on every function modelled here).

Effectful operations (network requests, filesystem calls, process
spawning) are modelled by passing their outcomes in explicitly as
oracle values; filesystem contents are explicit state records threaded
through each function. File contents are abstract byte lists
(`List Nat`), so "byte-for-byte unchanged" is plain equality.
-/

namespace Updater

/-! ## Version comparison (`compare_versions`, updater.py lines 76-119) -/

/-- One step of Python `str.split('.')`: splitting keeps empty pieces, and
splitting the empty string yields `[""]`. -/
def splitChar (c : Char) : List Char → List (List Char)
  | [] => [[]]
  | x :: xs =>
      let r := splitChar c xs
      if x = c then [] :: r
      else
        match r with
        | [] => [[x]]
        | y :: ys => (x :: y) :: ys

/-- Value of a digit string, most significant first. -/
def digitsToNat (cs : List Char) : Nat :=
  cs.foldl (fun acc c => acc * 10 + (c.toNat - 48)) 0

/-- Python `str.strip()`: drop whitespace from both ends. -/
def pyStrip (cs : List Char) : List Char :=
  ((cs.dropWhile Char.isWhitespace).reverse.dropWhile Char.isWhitespace).reverse

/-- Python `int(part)` restricted to the shapes that can reach it here:
after the source has replaced `-` and `_` by `.` and split on `.`, a part
can hold whitespace, an optional leading `+`, and digits. `none` models
the `ValueError` branch (caught by the caller, which substitutes 0). -/
def pyInt? (cs : List Char) : Option Nat :=
  let t := pyStrip cs
  let t := match t with
    | '+' :: rest => rest
    | other => other
  if t ≠ [] ∧ t.all Char.isDigit then some (digitsToNat t) else none

/-- `normalize` from `compare_versions`: strip outer whitespace, strip the
leading run of `v` then of `V`, replace `-` and `_` by `.`, split on `.`,
and parse each part as an integer substituting 0 on parse failure. -/
def normalize (v : String) : List Nat :=
  let cs := pyStrip v.data
  let cs := (cs.dropWhile (fun c => c = 'v')).dropWhile (fun c => c = 'V')
  let cs := cs.map (fun c => if c = '-' ∨ c = '_' then '.' else c)
  (splitChar '.' cs).map (fun part => (pyInt? part).getD 0)

/-- The comparison loop `for l, r in zip(...)`: first unequal pair decides;
`zip` stops at the shorter list (the caller pads both to equal length). -/
def cmpSeq : List Nat → List Nat → Int
  | a :: l1, b :: l2 =>
      if a < b then -1 else if b < a then 1 else cmpSeq l1 l2
  | _, _ => 0

/-- `parts.extend([0] * (max_len - len(parts)))`. -/
def padZeros (l : List Nat) (n : Nat) : List Nat :=
  l ++ List.replicate (n - l.length) 0

/-- `compare_versions(local, remote)` (lines 76-119). Returns -1 / 0 / 1.
The source wraps the body in `try/except`, but for string arguments the
body cannot raise (the only fallible step, `int(part)`, is caught inside
`normalize`), so the lexical-fallback `except` branch is dead code and the
embedding is the `try` branch. -/
def compare_versions (lv rv : String) : Int :=
  cmpSeq
    (padZeros (normalize lv) (max (normalize lv).length (normalize rv).length))
    (padZeros (normalize rv) (max (normalize lv).length (normalize rv).length))

theorem cmpSeq_self (l : List Nat) : cmpSeq l l = 0 := by
  induction l with
  | nil => rfl
  | cons a t ih => simp [cmpSeq, ih]

theorem cmpSeq_range (l1 l2 : List Nat) :
    cmpSeq l1 l2 = -1 ∨ cmpSeq l1 l2 = 0 ∨ cmpSeq l1 l2 = 1 := by
  induction l1 generalizing l2 with
  | nil => cases l2 <;> simp [cmpSeq]
  | cons a t ih =>
      cases l2 with
      | nil => simp [cmpSeq]
      | cons b t2 =>
          by_cases hab : a < b
          · simp [cmpSeq, hab]
          · by_cases hba : b < a
            · simp [cmpSeq, hab, hba]
            · simpa [cmpSeq, hab, hba] using ih t2

/-- C7: for every pair of input strings, `compare_versions` terminates
normally (it is a total function of its two string arguments) and its
result is one of exactly -1, 0, 1; no input makes it raise. -/
theorem compare_versions_total_range (lv rv : String) :
    compare_versions lv rv = -1 ∨ compare_versions lv rv = 0 ∨
      compare_versions lv rv = 1 :=
  cmpSeq_range _ _

/-- C8: the three concrete normalization behaviours: numeric (not lexical)
segment comparison, version-prefix stripping with zero padding, and
non-numeric token substitution by 0. -/
theorem compare_versions_examples :
    compare_versions "1.9.0" "1.10.0" = -1 ∧
    compare_versions "v2.0" "2.0.0" = 0 ∧
    compare_versions "1.0.0-beta" "1.0.0" = 0 := by
  refine ⟨?_, ?_, ?_⟩ <;> rfl

/-- C9: `compare_versions` is reflexive: comparing any version string with
itself yields 0 (EQUAL). -/
theorem compare_versions_refl (x : String) : compare_versions x x = 0 :=
  cmpSeq_self _

/-! ## Data classes (updater.py lines 44-61) -/

/-- `VersionInfo` dataclass. -/
structure VersionInfo where
  version : String
  download_url : String
  release_notes : String := ""
deriving Repr, DecidableEq

/-- `VersionInfo.__bool__`: truthy iff both `version` and `download_url`
are non-empty. -/
def VersionInfo.toBool (vi : VersionInfo) : Bool :=
  vi.version ≠ "" && vi.download_url ≠ ""

/-- Python truthiness of an `Optional[VersionInfo]`: `None` is falsy, a
`VersionInfo` defers to its `__bool__`. -/
def optViTruthy : Option VersionInfo → Bool
  | none => false
  | some vi => vi.toBool

/-- Python truthiness of an `Optional[str]`: `None` and `""` are falsy. -/
def strTruthy : Option String → Bool
  | none => false
  | some s => s ≠ ""

/-- `UpdateResult` dataclass. -/
structure UpdateResult where
  success : Bool
  message : String
  requires_restart : Bool := false
  new_version : String := ""
deriving Repr, DecidableEq

/-! ## yt-dlp version checking (`check_ytdlp_update`, lines 222-248)

`get_local_ytdlp_version` returns `None` when the binary file is absent
(it checks `os.path.exists` before spawning), and otherwise the probed
version string or `None` on probe failure; its result is the oracle
`localProbe`. `get_remote_ytdlp_version` returns `None` on any network
failure or rate limit; its result is the oracle `remoteInfo`. -/

/-- `check_ytdlp_update(engine_dir)` with the two probe results passed in
explicitly. Returns `(needs_update, local_version, remote_version)`.
`local_ver = get_local_ytdlp_version(...) or "ไม่พบ"` uses Python `or`
(truthiness), so both `None` and `""` become the placeholder. -/
def check_ytdlp_update (localProbe : Option String)
    (remoteInfo : Option VersionInfo) : Bool × String × String :=
  let local_ver :=
    match localProbe with
    | none => "ไม่พบ"
    | some s => if s = "" then "ไม่พบ" else s
  match remoteInfo with
  | none => (false, local_ver, "ไม่สามารถเช็คได้")
  | some ri =>
      if local_ver = "ไม่พบ" then (true, local_ver, ri.version)
      else (compare_versions local_ver ri.version < 0, local_ver, ri.version)

/-! ## App version checking (`check_app_update`, lines 255-290) -/

/-- The parsed JSON document fetched from `version_url`, with the
`data.get(key, "")` defaults already applied. A request that fails, a
non-2xx status, or a payload whose fields make any later step raise (all
swallowed by the function's `except` clause) is modelled as `none`. -/
structure AppPayload where
  version : String
  download_url : String
  release_notes : String
deriving Repr, DecidableEq

/-- `check_app_update(current_version, version_url)` with the fetched
payload passed in explicitly. Returns a `VersionInfo` only when the
request succeeded, the `version` field is non-empty (Python truthiness of
`str`), and `compare_versions(current, remote) < 0`; `None` otherwise. -/
def check_app_update (current_version : String)
    (resp : Option AppPayload) : Option VersionInfo :=
  match resp with
  | none => none
  | some data =>
      if data.version = "" then none
      else if compare_versions current_version data.version < 0 then
        some ⟨data.version, data.download_url, data.release_notes⟩
      else none

/-! ## Component update (`update_component`, lines 536-618) -/

/-- Outcome of the first `os.remove(target_path)` attempt. -/
inductive RemoveOutcome where
  | ok
  | permError
deriving Repr, DecidableEq

/-- Environment oracle for one `update_component` run.
`download = some bytes` means the streamed download completes and writes
`bytes` to the temp file; `none` means `requests.get`/the chunk loop
raises. `removeTarget` is the outcome of the first `os.remove` of the
target (consulted only when the target exists); `removeRetryOk` says
whether the `os.remove` retry after `taskkill` succeeds. The `os.rename`
calls and `os.makedirs` are modelled as succeeding (same directory, the
destination path has just been freed). -/
structure CompEnv where
  download : Option (List Nat)
  removeTarget : RemoveOutcome
  removeRetryOk : Bool
deriving Repr, DecidableEq

/-- Filesystem state seen by `update_component`: contents (or absence) of
`target_path`, the `.new` temp path, and the `.old` rename-aside path. -/
structure CompFS where
  target : Option (List Nat)
  temp : Option (List Nat)
  old : Option (List Nat)
deriving Repr, DecidableEq

/-- `update_component(download_url, target_path, engine_dir, ...)`.
Mirrors lines 558-618: download to temp; raise `UpdateError` if the temp
file is under 1000 bytes; if the target exists, remove it (with the
`PermissionError` → `taskkill` → retry → rename-aside ladder of lines
586-601); rename temp onto target; return `True`. Any exception lands in
the `except` clause, which removes the temp file and returns `False`. -/
def update_component (env : CompEnv) (fs : CompFS) : Bool × CompFS :=
  match env.download with
  | none =>
      -- download raised; cleanup removes whatever was written to temp
      (false, { fs with temp := none })
  | some bytes =>
      let fs1 : CompFS := { fs with temp := some bytes }
      if bytes.length < 1000 then
        -- raise UpdateError("ไฟล์เสียหาย"); except clause removes temp
        (false, { fs1 with temp := none })
      else
        match fs1.target with
        | none =>
            -- target absent: straight to os.rename(temp_path, target_path)
            (true, { fs1 with temp := none, target := some bytes })
        | some tgt =>
            match env.removeTarget with
            | RemoveOutcome.ok =>
                (true, { fs1 with temp := none, target := some bytes })
            | RemoveOutcome.permError =>
                if env.removeRetryOk then
                  -- taskkill then os.remove succeeded
                  (true, { fs1 with temp := none, target := some bytes })
                else
                  -- rename-aside: remove stale .old, target → .old,
                  -- then temp → target
                  (true, { target := some bytes, temp := none,
                           old := some tgt })

/-! ## Smart yt-dlp update (`update_ytdlp`, lines 625-714) -/

/-- Oracles read by `update_ytdlp` before its decision chain:
`file_exists = os.path.exists(ytdlp_path)`,
`local_ver = get_local_ytdlp_version(ytdlp_path)`,
`remote_info = get_remote_ytdlp_version()`, plus the environment for the
`update_component` call it may make. -/
structure ToolEnv where
  file_exists : Bool
  local_ver : Option String
  remote_info : Option VersionInfo
  comp : CompEnv
deriving Repr, DecidableEq

/-- Result of an `update_ytdlp` run: the returned bool, whether
`update_component` (the download/install step) was invoked, and the
resulting engine-directory file state. -/
structure ToolOutcome where
  ok : Bool
  downloaded : Bool
  fs : CompFS
deriving Repr, DecidableEq

/-- `update_ytdlp(engine_dir, ..., force)` (lines 625-714). The decision
chain of lines 677-704, in source order: file absent → download; `force`
→ download; remote falsy and file exists → return True; local falsy and
file exists and not forced → return True; both truthy → download iff
`compare_versions(local, remote) < 0`, else return True; and the final
`if not needs_update: return True`. The chosen download URL (remote
asset URL vs. the hard-coded fallback) does not change the modelled
behaviour of `update_component` and is not tracked. -/
def update_ytdlp (force : Bool) (env : ToolEnv) (fs : CompFS) : ToolOutcome :=
  if env.file_exists = false then
    let r := update_component env.comp fs
    ⟨r.1, true, r.2⟩
  else if force then
    let r := update_component env.comp fs
    ⟨r.1, true, r.2⟩
  else if optViTruthy env.remote_info = false then
    -- "Using current version (cannot check for updates)"
    ⟨true, false, fs⟩
  else if strTruthy env.local_ver = false then
    -- "Skipping update (version check failed but file exists)"
    ⟨true, false, fs⟩
  else
    match env.local_ver, env.remote_info with
    | some lv, some ri =>
        if compare_versions lv ri.version < 0 then
          let r := update_component env.comp fs
          ⟨r.1, true, r.2⟩
        else
          -- "yt-dlp is up to date"
          ⟨true, false, fs⟩
    | _, _ =>
        -- unreachable under the truthiness guards above;
        -- corresponds to the final `if not needs_update: return True`
        ⟨true, false, fs⟩

/-! ## Self-update (`perform_app_update`, lines 293-529) -/

/-- Environment oracle for one `perform_app_update` run.
`download = some bytes`: the streamed download completes, writing `bytes`
to `_update_download.tmp`; `none`: it raises. `is_zip` is
`zipfile.is_zipfile(download_temp)`. In ZIP mode, `extract_ok` says
whether `extractall` succeeds and `exe_found` is the result of the
recursive `.exe` search (its absence raises `UpdateError`).
`script_write_ok` says whether writing `update.bat` succeeds. The
`subprocess.Popen` launch of the script is modelled as succeeding. -/
structure PerformEnv where
  download : Option (List Nat)
  is_zip : Bool
  extract_ok : Bool
  exe_found : Option String
  script_write_ok : Bool
deriving Repr, DecidableEq

/-- Filesystem artifacts in the application directory that
`perform_app_update` creates: `_update_download.tmp`, the
`_update_extract` directory, `update.bat`, and `app.new.exe`. -/
structure AppFS where
  download_temp : Option (List Nat)
  extract_dir : Bool
  batch : Bool
  new_app : Option (List Nat)
deriving Repr, DecidableEq

/-- The `except` clause of lines 510-529: remove the temp download, the
extract directory, and the batch script (best effort; modelled as
succeeding). Note `app.new.exe` is NOT in the cleanup list. -/
def performCleanup (fs : AppFS) : AppFS :=
  { fs with download_temp := none, extract_dir := false, batch := false }

/-- The `UpdateResult` of the failure path (lines 525-529). -/
def performFailResult (msg : String) : UpdateResult :=
  ⟨false, msg, false, ""⟩

/-- `perform_app_update(download_url, app_path, ...)` (lines 293-529).
Download to `_update_download.tmp`; if it is a ZIP, extract and search
for an executable (raising `UpdateError` when none is found) and build a
directory-merge batch script; otherwise rename the temp to `app.new.exe`,
raise `UpdateError` if it is under 10000 bytes, and build a single-exe
batch script. Write the script, launch it detached, and return
`success=True, requires_restart=True`. Any exception is caught by lines
510-529, which clean up the three listed artifacts and return
`success=False, requires_restart=False`. -/
def perform_app_update (env : PerformEnv) (fs : AppFS) :
    UpdateResult × AppFS :=
  match env.download with
  | none =>
      (performFailResult "download failed", performCleanup fs)
  | some bytes =>
      let fs1 : AppFS := { fs with download_temp := some bytes }
      if env.is_zip then
        if env.extract_ok = false then
          (performFailResult "extract failed", performCleanup fs1)
        else
          let fs2 : AppFS := { fs1 with extract_dir := true }
          match env.exe_found with
          | none =>
              -- raise UpdateError("ไม่พบไฟล์ .exe ใน ZIP Package")
              (performFailResult "ไม่พบไฟล์ .exe ใน ZIP Package",
               performCleanup fs2)
          | some _ =>
              if env.script_write_ok then
                let fs3 : AppFS := { fs2 with batch := true }
                (⟨true, "กรุณารอสักครู่ โปรแกรมจะเปิดใหม่อัตโนมัติ",
                   true, ""⟩, fs3)
              else
                (performFailResult "script write failed", performCleanup fs2)
      else
        -- Raw EXE mode: os.rename(download_temp, new_app_path)
        let fs2 : AppFS := { fs1 with download_temp := none,
                                      new_app := some bytes }
        if bytes.length < 10000 then
          -- raise UpdateError("ไฟล์ที่ดาวน์โหลดเสียหาย")
          (performFailResult "ไฟล์ที่ดาวน์โหลดเสียหาย", performCleanup fs2)
        else if env.script_write_ok then
          let fs3 : AppFS := { fs2 with batch := true }
          (⟨true, "กรุณารอสักครู่ โปรแกรมจะเปิดใหม่อัตโนมัติ",
             true, ""⟩, fs3)
        else
          (performFailResult "script write failed", performCleanup fs2)

/-- The conditions under which the body of `perform_app_update` raises an
exception (reaching the `except` clause of lines 510-529): the download
raises, ZIP extraction raises, no executable is found in the archive, the
raw executable fails the minimum-size validation, or writing the update
script raises. -/
def performRaises (env : PerformEnv) : Prop :=
  env.download = none ∨
  (env.is_zip = true ∧ env.extract_ok = false) ∨
  (env.is_zip = true ∧ env.exe_found = none) ∨
  (env.is_zip = false ∧ ∃ b, env.download = some b ∧ b.length < 10000) ∨
  env.script_write_ok = false

/-! ## Chained update workflow (`run_full_update_routine`, lines 721-808) -/

/-- Environment for one full routine run: the fetched app-metadata
payload (for `check_app_update`), the self-update environment, and the
tool-update environment. -/
structure RoutineEnv where
  app_resp : Option AppPayload
  perform : PerformEnv
  tool : ToolEnv
deriving Repr, DecidableEq

/-- Observable outcome of `run_full_update_routine`: the returned
`UpdateResult`, whether `perform_app_update` was invoked, whether
`update_ytdlp` was invoked, and the final file states. -/
structure RoutineOutcome where
  result : UpdateResult
  performInvoked : Bool
  ytdlpInvoked : Bool
  appFS : AppFS
  toolFS : CompFS
deriving Repr, DecidableEq

/-- The yt-dlp stage of the routine (lines 789-808): call `update_ytdlp`
(with `force` left at its default `False`) and wrap its bool into the
final `UpdateResult`. -/
def routineToolStage (env : RoutineEnv) (performInvoked : Bool)
    (afs : AppFS) (cfs : CompFS) : RoutineOutcome :=
  let t := update_ytdlp false env.tool cfs
  if t.ok then
    ⟨⟨true, "อัปเดตเสร็จสมบูรณ์", false, ""⟩, performInvoked, true, afs, t.fs⟩
  else
    ⟨⟨false, "อัปเดต yt-dlp ล้มเหลว", false, ""⟩, performInvoked, true, afs,
     t.fs⟩

/-- `run_full_update_routine(app_version, app_version_url, ...)` (lines
721-808). If the app-update stage is enabled
(`not skip_app_update and app_version_url`, with Python truthiness of the
optional URL) and `check_app_update` returns a truthy `VersionInfo`, run
`perform_app_update`; when its result has `success and requires_restart`
the routine returns that result immediately, otherwise it falls through
to the yt-dlp stage (logging a warning when it failed). In every other
case it goes straight to the yt-dlp stage. -/
def run_full_update_routine (app_version : String)
    (app_version_url : Option String) (skip_app_update : Bool)
    (env : RoutineEnv) (afs : AppFS) (cfs : CompFS) : RoutineOutcome :=
  if !skip_app_update && strTruthy app_version_url then
    let app_update := check_app_update app_version env.app_resp
    if optViTruthy app_update then
      let r := perform_app_update env.perform afs
      if r.1.success && r.1.requires_restart then
        ⟨r.1, true, false, r.2, cfs⟩
      else
        -- failure logs a warning; either way, fall through
        routineToolStage env true r.2 cfs
    else
      routineToolStage env false afs cfs
  else
    routineToolStage env false afs cfs

/-! ## Theorems about the embedded functions -/

/-- C10: `check_app_update` returns a `VersionInfo` iff the metadata
request succeeds, the payload's `version` field is non-empty, and
`compare_versions(current, remote) < 0`; in every other case (remote
equal or older, missing version, network failure, malformed payload =
`resp = none`) it returns `None`, so the caller cannot tell "up to date"
from "metadata unavailable" apart from the result alone. -/
theorem check_app_update_some_iff (cv : String) (resp : Option AppPayload) :
    (check_app_update cv resp).isSome = true ↔
      ∃ data, resp = some data ∧ data.version ≠ "" ∧
        compare_versions cv data.version < 0 := by
  cases resp with
  | none => simp [check_app_update]
  | some data =>
      simp only [check_app_update]
      split_ifs with h1 h2 <;> simp_all

/-- C4: when the downloaded artifact is below the 1000-byte minimum,
`update_component` returns `False`, removes the temp file, and leaves
both a pre-existing target and the `.old` path byte-for-byte unchanged
(the target is modified on no failure path). -/
theorem update_component_small_download_fails_untouched
    (env : CompEnv) (fs : CompFS) (bytes : List Nat)
    (hdl : env.download = some bytes) (hsz : bytes.length < 1000) :
    (update_component env fs).1 = false ∧
    (update_component env fs).2.temp = none ∧
    (update_component env fs).2.target = fs.target ∧
    (update_component env fs).2.old = fs.old := by
  unfold update_component
  rw [hdl]
  simp [hsz]

theorem update_component_small_download_fails_untouched_witness :
    (⟨some [1, 2, 3], RemoveOutcome.ok, true⟩ : CompEnv).download
        = some [1, 2, 3] ∧
    ([1, 2, 3] : List Nat).length < 1000 ∧
    ((update_component ⟨some [1, 2, 3], RemoveOutcome.ok, true⟩
        ⟨some [9], none, none⟩).1 = false ∧
     (update_component ⟨some [1, 2, 3], RemoveOutcome.ok, true⟩
        ⟨some [9], none, none⟩).2.temp = none ∧
     (update_component ⟨some [1, 2, 3], RemoveOutcome.ok, true⟩
        ⟨some [9], none, none⟩).2.target
        = (⟨some [9], none, none⟩ : CompFS).target ∧
     (update_component ⟨some [1, 2, 3], RemoveOutcome.ok, true⟩
        ⟨some [9], none, none⟩).2.old
        = (⟨some [9], none, none⟩ : CompFS).old) :=
  ⟨rfl, by decide,
   update_component_small_download_fails_untouched _ _ _ rfl (by decide)⟩

/-- C5: download succeeds and passes the size check, removing the target
raises `PermissionError`, and the `taskkill`-then-retry also fails: the
function renames the old target aside to the `.old` path, renames the
validated temp file onto `target_path`, and returns `True` — the swap
completes with the new bytes at the target. -/
theorem update_component_rename_aside_completes_swap
    (env : CompEnv) (fs : CompFS) (bytes tgt : List Nat)
    (hdl : env.download = some bytes) (hsz : 1000 ≤ bytes.length)
    (htgt : fs.target = some tgt)
    (hrm : env.removeTarget = RemoveOutcome.permError)
    (hretry : env.removeRetryOk = false) :
    (update_component env fs).1 = true ∧
    (update_component env fs).2.target = some bytes ∧
    (update_component env fs).2.old = some tgt ∧
    (update_component env fs).2.temp = none := by
  unfold update_component
  rw [hdl]
  simp [htgt, hrm, hretry, Nat.not_lt.mpr hsz]

theorem update_component_rename_aside_completes_swap_witness :
    (⟨some (List.replicate 1000 7), RemoveOutcome.permError, false⟩
        : CompEnv).download = some (List.replicate 1000 7) ∧
    1000 ≤ (List.replicate 1000 7).length ∧
    (⟨some [5], none, some [4]⟩ : CompFS).target = some [5] ∧
    ((update_component
        ⟨some (List.replicate 1000 7), RemoveOutcome.permError, false⟩
        ⟨some [5], none, some [4]⟩).1 = true ∧
     (update_component
        ⟨some (List.replicate 1000 7), RemoveOutcome.permError, false⟩
        ⟨some [5], none, some [4]⟩).2.target
        = some (List.replicate 1000 7) ∧
     (update_component
        ⟨some (List.replicate 1000 7), RemoveOutcome.permError, false⟩
        ⟨some [5], none, some [4]⟩).2.old = some [5] ∧
     (update_component
        ⟨some (List.replicate 1000 7), RemoveOutcome.permError, false⟩
        ⟨some [5], none, some [4]⟩).2.temp = none) :=
  ⟨rfl, by simp only [List.length_replicate, le_refl], rfl,
   update_component_rename_aside_completes_swap _ _ _ _ rfl
     (by simp only [List.length_replicate, le_refl]) rfl rfl rfl⟩

/-- C2 counterexample: with the binary present and the remote resolver
returning `None`, but the `force` flag set, `update_ytdlp` DOES invoke
the download step (`update_component`), and here it returns `False`
rather than `True` — the `force` branch (line 680) precedes the
remote-unavailable branch (line 683), refuting "for every invocation". -/
theorem update_ytdlp_force_downloads_despite_remote_none :
    (update_ytdlp true
        ⟨true, some "2024.01.01", none, ⟨none, RemoveOutcome.ok, true⟩⟩
        ⟨some [1], none, none⟩).downloaded = true ∧
    (update_ytdlp true
        ⟨true, some "2024.01.01", none, ⟨none, RemoveOutcome.ok, true⟩⟩
        ⟨some [1], none, none⟩).ok = false := by
  decide

/-- C2 amended: with the binary present, the remote resolver returning
`None`, and the `force` flag NOT set, `update_ytdlp` returns `True`
without invoking any download and leaves the files untouched (and, being
a total function of its oracles, never throws). -/
theorem update_ytdlp_remote_none_keeps_current
    (env : ToolEnv) (fs : CompFS)
    (hex : env.file_exists = true) (hrem : env.remote_info = none) :
    update_ytdlp false env fs = ⟨true, false, fs⟩ := by
  unfold update_ytdlp
  simp [hex, hrem, optViTruthy]

theorem update_ytdlp_remote_none_keeps_current_witness :
    (⟨true, some "2023.11.16", none, ⟨none, RemoveOutcome.ok, true⟩⟩
        : ToolEnv).file_exists = true ∧
    (⟨true, some "2023.11.16", none, ⟨none, RemoveOutcome.ok, true⟩⟩
        : ToolEnv).remote_info = none ∧
    update_ytdlp false
        ⟨true, some "2023.11.16", none, ⟨none, RemoveOutcome.ok, true⟩⟩
        ⟨some [1], none, none⟩
      = ⟨true, false, ⟨some [1], none, none⟩⟩ :=
  ⟨rfl, rfl, update_ytdlp_remote_none_keeps_current _ _ rfl rfl⟩

/-- C3 counterexample: with the local binary absent (so the local probe
returns `None`, line 136-138) and the remote resolver returning `None`,
`check_ytdlp_update` returns `needs_update = False` — its
remote-unavailable early return (line 237) precedes its binary-absent
check (line 242), so "binary absent always yields needs-update" fails
for `check_ytdlp_update`. -/
theorem check_ytdlp_update_absent_remote_none_no_update :
    (check_ytdlp_update none none).1 = false := by
  decide

/-- C3 amended: a download is always attempted by `update_ytdlp` when the
binary is absent, regardless of probe result, force flag and remote
result; `check_ytdlp_update` reports needs-update for an absent binary
only provided the remote resolver returned a value (with the remote
unavailable it returns `needs_update = false`). -/
theorem absent_binary_needs_update_amended :
    (∀ (force : Bool) (env : ToolEnv) (fs : CompFS),
        env.file_exists = false →
        (update_ytdlp force env fs).downloaded = true ∧
        (update_ytdlp force env fs).ok = (update_component env.comp fs).1) ∧
    (∀ ri : VersionInfo, (check_ytdlp_update none (some ri)).1 = true) := by
  constructor
  · intro force env fs h
    unfold update_ytdlp
    simp [h]
  · intro ri
    rfl

theorem absent_binary_needs_update_amended_witness :
    (⟨false, none, none, ⟨some [1], RemoveOutcome.ok, true⟩⟩
        : ToolEnv).file_exists = false ∧
    (update_ytdlp false
        ⟨false, none, none, ⟨some [1], RemoveOutcome.ok, true⟩⟩
        ⟨none, none, none⟩).downloaded = true ∧
    (check_ytdlp_update none (some ⟨"2024.01.01", "u", ""⟩)).1 = true :=
  ⟨rfl, (absent_binary_needs_update_amended.1 false _ _ rfl).1,
   absent_binary_needs_update_amended.2 ⟨"2024.01.01", "u", ""⟩⟩

/-- Every failure path of `perform_app_update` (any condition in
`performRaises`) yields the `except`-clause behaviour of lines 510-529:
`success = False`, `requires_restart = False`, and the temp download,
extract directory and batch script all removed. -/
theorem perform_raises_spec (env : PerformEnv) (fs : AppFS)
    (h : performRaises env) :
    (perform_app_update env fs).1.success = false ∧
    (perform_app_update env fs).1.requires_restart = false ∧
    (perform_app_update env fs).2.download_temp = none ∧
    (perform_app_update env fs).2.extract_dir = false ∧
    (perform_app_update env fs).2.batch = false := by
  obtain ⟨dl, iz, eo, ef, sw⟩ := env
  simp only [performRaises] at h
  cases dl <;> cases iz <;> cases eo <;> cases ef <;> cases sw <;>
    simp_all [perform_app_update, performFailResult, performCleanup] <;>
    split <;> simp_all

/-- On every run of `perform_app_update`, the returned result has
`requires_restart = success`: the single success path (lines 503-508)
sets both, every failure path (lines 525-529) clears both. -/
theorem perform_restart_eq_success (env : PerformEnv) (fs : AppFS) :
    (perform_app_update env fs).1.requires_restart =
      (perform_app_update env fs).1.success := by
  obtain ⟨dl, iz, eo, ef, sw⟩ := env
  cases dl <;> cases iz <;> cases eo <;> cases ef <;> cases sw <;>
    simp_all [perform_app_update, performFailResult, performCleanup] <;>
    split <;> simp_all

/-- The yt-dlp stage always records that `update_ytdlp` was invoked. -/
theorem routineToolStage_invokes (env : RoutineEnv) (p : Bool)
    (afs : AppFS) (cfs : CompFS) :
    (routineToolStage env p afs cfs).ytdlpInvoked = true := by
  cases h : (update_ytdlp false env.tool cfs).ok <;>
    simp [routineToolStage, h]

/-- C6: whenever the body of `perform_app_update` raises (download,
extraction, exe search, size validation, or script generation), the
exception is caught: the function returns `success = False`,
`requires_restart = False`, with the temp download, extract directory
and script file removed; and `run_full_update_routine` then falls
through to the yt-dlp stage rather than aborting. -/
theorem perform_app_update_exception_cleanup_falls_through
    (env : RoutineEnv) (v : String) (url : Option String)
    (afs : AppFS) (cfs : CompFS)
    (hraise : performRaises env.perform) :
    (perform_app_update env.perform afs).1.success = false ∧
    (perform_app_update env.perform afs).1.requires_restart = false ∧
    (perform_app_update env.perform afs).2.download_temp = none ∧
    (perform_app_update env.perform afs).2.extract_dir = false ∧
    (perform_app_update env.perform afs).2.batch = false ∧
    (run_full_update_routine v url false env afs cfs).ytdlpInvoked
      = true := by
  obtain ⟨h1, h2, h3, h4, h5⟩ := perform_raises_spec env.perform afs hraise
  refine ⟨h1, h2, h3, h4, h5, ?_⟩
  by_cases hu : strTruthy url = true
  · by_cases hf : optViTruthy (check_app_update v env.app_resp) = true
    · simp [run_full_update_routine, hu, hf, h1, routineToolStage_invokes]
    · simp [run_full_update_routine, hu, hf, routineToolStage_invokes]
  · simp [run_full_update_routine, hu, routineToolStage_invokes]

theorem perform_app_update_exception_cleanup_falls_through_witness :
    performRaises (⟨none, false, true, none, true⟩ : PerformEnv) ∧
    ((perform_app_update ⟨none, false, true, none, true⟩
        ⟨none, false, false, none⟩).1.success = false ∧
     (perform_app_update ⟨none, false, true, none, true⟩
        ⟨none, false, false, none⟩).1.requires_restart = false ∧
     (perform_app_update ⟨none, false, true, none, true⟩
        ⟨none, false, false, none⟩).2.download_temp = none ∧
     (perform_app_update ⟨none, false, true, none, true⟩
        ⟨none, false, false, none⟩).2.extract_dir = false ∧
     (perform_app_update ⟨none, false, true, none, true⟩
        ⟨none, false, false, none⟩).2.batch = false ∧
     (run_full_update_routine "" none false
        ⟨none, ⟨none, false, true, none, true⟩,
         ⟨true, none, none, ⟨none, RemoveOutcome.ok, true⟩⟩⟩
        ⟨none, false, false, none⟩ ⟨none, none, none⟩).ytdlpInvoked
       = true) :=
  ⟨Or.inl rfl,
   perform_app_update_exception_cleanup_falls_through
     ⟨none, ⟨none, false, true, none, true⟩,
      ⟨true, none, none, ⟨none, RemoveOutcome.ok, true⟩⟩⟩
     "" none ⟨none, false, false, none⟩ ⟨none, none, none⟩ (Or.inl rfl)⟩

/-- C1: with the app-update stage enabled (`skip_app_update = False` and
a truthy metadata URL), an app update found (`check_app_update` returns
a truthy `VersionInfo`), and `perform_app_update` succeeding, the routine
returns that `UpdateResult` immediately: the result has `success = True`
and `requires_restart = True`, and `update_ytdlp` is never invoked in
that run. -/
theorem routine_app_update_success_short_circuits
    (env : RoutineEnv) (v : String) (url : Option String)
    (afs : AppFS) (cfs : CompFS)
    (hurl : strTruthy url = true)
    (hfound : optViTruthy (check_app_update v env.app_resp) = true)
    (hsucc : (perform_app_update env.perform afs).1.success = true) :
    (run_full_update_routine v url false env afs cfs).result =
      (perform_app_update env.perform afs).1 ∧
    (run_full_update_routine v url false env afs cfs).result.success
      = true ∧
    (run_full_update_routine v url false env afs
        cfs).result.requires_restart = true ∧
    (run_full_update_routine v url false env afs cfs).ytdlpInvoked
      = false ∧
    (run_full_update_routine v url false env afs cfs).performInvoked
      = true := by
  have hres : (perform_app_update env.perform afs).1.requires_restart
      = true := by
    rw [perform_restart_eq_success]
    exact hsucc
  simp [run_full_update_routine, hurl, hfound, hsucc, hres]

theorem routine_app_update_success_short_circuits_witness :
    strTruthy (some "https://example.com/version.json") = true ∧
    optViTruthy (check_app_update "1.0.0" (some ⟨"9.9.9", "u", ""⟩))
      = true ∧
    (perform_app_update ⟨some [1], true, true, some "Infinity.exe", true⟩
        ⟨none, false, false, none⟩).1.success = true ∧
    ((run_full_update_routine "1.0.0"
        (some "https://example.com/version.json") false
        ⟨some ⟨"9.9.9", "u", ""⟩,
         ⟨some [1], true, true, some "Infinity.exe", true⟩,
         ⟨true, none, none, ⟨none, RemoveOutcome.ok, true⟩⟩⟩
        ⟨none, false, false, none⟩ ⟨none, none, none⟩).result.success
       = true ∧
     (run_full_update_routine "1.0.0"
        (some "https://example.com/version.json") false
        ⟨some ⟨"9.9.9", "u", ""⟩,
         ⟨some [1], true, true, some "Infinity.exe", true⟩,
         ⟨true, none, none, ⟨none, RemoveOutcome.ok, true⟩⟩⟩
        ⟨none, false, false, none⟩
        ⟨none, none, none⟩).result.requires_restart = true ∧
     (run_full_update_routine "1.0.0"
        (some "https://example.com/version.json") false
        ⟨some ⟨"9.9.9", "u", ""⟩,
         ⟨some [1], true, true, some "Infinity.exe", true⟩,
         ⟨true, none, none, ⟨none, RemoveOutcome.ok, true⟩⟩⟩
        ⟨none, false, false, none⟩ ⟨none, none, none⟩).ytdlpInvoked
       = false) :=
  ⟨by decide, by decide, rfl,
   have h := routine_app_update_success_short_circuits
     ⟨some ⟨"9.9.9", "u", ""⟩,
      ⟨some [1], true, true, some "Infinity.exe", true⟩,
      ⟨true, none, none, ⟨none, RemoveOutcome.ok, true⟩⟩⟩
     "1.0.0" (some "https://example.com/version.json")
     ⟨none, false, false, none⟩ ⟨none, none, none⟩
     (by decide) (by decide) rfl
   ⟨h.2.1, h.2.2.1, h.2.2.2.1⟩⟩

end Updater
